import Mathlib

set_option maxHeartbeats 2000000

/-!
Shallow embedding of alienv (src/src/main.rs), an alias-environment manager.

The program cannot mutate its parent shell; it accumulates shell statements
in a string buffer and prints the buffer once at process exit.  We model the
buffer as a list of statements, one element per add_output_line call in the
source, and recover the printed text with flush.  The filesystem is modelled
by the fields of St: the set of environment directories under the root and,
for each environment name, the contents of its alias file as a list of lines
(none when the file cannot be opened, for instance because the directory does
not exist).  The ALIAS_ENV process variable is modelled as an Option String,
exactly the shape returned by env::var_os.  Fallible Rust paths become an
Except: the error function of the source (print one echo statement, exit 1)
becomes Exit.err, and a Rust panic raised by expect or unwrap becomes
Exit.abort.  Filesystem writes that the source checks with err_check are
assumed to succeed once the file could be opened, since no claim concerns a
failing write.
-/

namespace Alienv

def ROOT_DIR : String := ".alienv"

def ENV_VAR : String := "ALIAS_ENV"

def NO_ENV_ACTIVE : String := "NO ENV"

def ALIAS_FILE : String := "aliases"

/-- Early process termination: err m models error(m) in the source, which
prints one echo statement to stdout and exits with code 1; abort m models a
Rust panic from expect or unwrap, which exits nonzero printing nothing to
stdout. -/
inductive Exit where
  | err (msg : String)
  | abort (msg : String)
  deriving DecidableEq, Repr

/-- State visible to one invocation: the ALIAS_ENV variable as seen by
env::var_os, the environment directories under the root storage directory,
and the lines of each environment alias file. -/
structure St where
  envVar : Option String
  envs : List String
  files : String → Option (List String)

/-- Source error, line 36: print one echo statement and exit 1.  The printed
statement is produced by error_stmt below; inside the model the divergence is
an Except.error carrying Exit.err. -/
def error_stmt (msg : String) : String :=
  "echo \x27Error: " ++ msg ++ "\x27"

/-- Source is_cur_env, line 69: the marker variable equals env. -/
def is_cur_env (st : St) (env : String) : Bool :=
  match st.envVar with
  | some cur => cur == env
  | none => false

/-- Source add_output_line, line 78: push one statement (the source appends
the text followed by a semicolon to a flat string; we keep the statements as
list elements and re-join them in flush). -/
def add_output_line (output : List String) (line : String) : List String :=
  output ++ [line]

/-- The final println of main, line 453: the buffer text, one semicolon after
every statement. -/
def flush (output : List String) : String :=
  String.join (output.map (fun l => l ++ ";"))

/-- One character of the class of VALID_ENV_REGEX, line 24. -/
def validChar (c : Char) : Bool :=
  c == '-' || c == '_' || c == '.' ||
  decide ('A' ≤ c ∧ c ≤ 'Z') || decide ('a' ≤ c ∧ c ≤ 'z') ||
  decide ('0' ≤ c ∧ c ≤ '9')

/-- Source is_valid_env_name, line 83.  Regex::is_match with the unanchored
pattern of VALID_ENV_REGEX succeeds exactly when some character of the string
lies in the class, so the conjunct is an existential over characters, not a
universal. -/
def is_valid_env_name (env : String) : Bool :=
  env.data.any validChar && env != NO_ENV_ACTIVE

/-- Source env_exists, line 89: scan the root directory entries for the
name.  read_dir is assumed readable since setup creates the root. -/
def env_exists (st : St) (env : String) : Bool :=
  st.envs.contains env

/-- Rust str::contains: needle occurs as a contiguous substring of hay. -/
def containsSub (hay needle : String) : Bool :=
  (List.range (hay.data.length + 1)).any
    (fun i => needle.data.isPrefixOf (hay.data.drop i))

/-- Split a token at the last equals sign that still leaves a nonempty
remainder, returning the parts before and after that sign. -/
def splitLastEq : List Char → Option (List Char × List Char)
  | [] => none
  | c :: cs =>
    match splitLastEq cs with
    | some p => some (c :: p.1, p.2)
    | none => if c == '=' && !cs.isEmpty then some ([], cs) else none

/-- Model of the scan_fmt pattern used at line 163 of the source, which
matches the literal word alias, a space, a nonempty run of non-whitespace
characters, an equals sign, and a further nonempty run of non-whitespace
characters, the first group matching greedily.  We model it for lines whose
record follows the literal prefix as a single whitespace-free token, which
covers every line the program itself writes.  Returns the first captured
group, the alias name. -/
def scanAlias (line : String) : Option String :=
  if "alias ".data.isPrefixOf line.data then
    let t := (line.data.drop 6).takeWhile (fun c => !c.isWhitespace)
    match splitLastEq t with
    | some p => if p.1.isEmpty then none else some (String.mk p.1)
    | none => none
  else none

/-- The per-line map of unalias_all, lines 161-168: each line must scan as an
alias record, otherwise error("Invalid alias file"); a scanned record with
name a becomes the statement unalias a.  Evaluation is sequential, stopping
at the first failing line, as in the source. -/
def unaliasLines : List String → Except Exit (List String)
  | [] => .ok []
  | line :: rest =>
    match scanAlias line with
    | some a =>
      match unaliasLines rest with
      | .ok us => .ok (("unalias " ++ a) :: us)
      | .error e => .error e
    | none => .error (.err "Invalid alias file")

/-- Source set_alias_var, line 144: append the shell assignment of ENV_VAR
produced by the Shell abstraction. -/
def setenv (varName value : String) : String :=
  "export " ++ varName ++ "=\x22" ++ value ++ "\x22"

/-- Modelled from the spec: the module lib (file src/lib.rs with get_shell
and Shell::setenv) is absent from the sources; the spec says the emitter
appends the shell-specific syntax for assigning the marker, delegated to a
Shell abstraction supporting at least one concrete dialect.  setenv above
renders that assignment for one concrete dialect; no claim depends on the
literal syntax, only on which statement it is. -/
def set_alias_var (output : List String) (status : String) : List String :=
  add_output_line output (setenv ENV_VAR status)

/-- Source unalias_all, line 151: open the alias file of env, turn every
line into an unalias statement, join them with semicolons, and append the
joined text as one output line when it is nonempty. -/
def unalias_all (st : St) (output : List String) (env : String) :
    Except Exit (List String) :=
  match st.files env with
  | none => .error (.err "Unable to access aliases")
  | some lines =>
    match unaliasLines lines with
    | .error e => .error e
    | .ok us =>
      let unset_aliases := String.intercalate ";" us
      if unset_aliases != "" then .ok (add_output_line output unset_aliases)
      else .ok output

/-- Source alias_all, line 179: open the alias file of env, join its lines
verbatim with semicolons, and append the joined text as one output line when
it is nonempty.  Note that unlike unalias_all it never parses the lines. -/
def alias_all (st : St) (output : List String) (env : String) :
    Except Exit (List String) :=
  match st.files env with
  | none => .error (.err "Unable to access aliases")
  | some lines =>
    let set_aliases := String.intercalate ";" lines
    if set_aliases != "" then .ok (add_output_line output set_aliases)
    else .ok output

/-- Source setup, line 204: create the root directory when missing (not
tracked by the model) and, when the marker variable is unset, emit its
initial assignment to the sentinel. -/
def setup (st : St) (output : List String) : List String :=
  match st.envVar with
  | none => set_alias_var output NO_ENV_ACTIVE
  | some _ => output

/-- Source load, line 284: require the target to exist, forbid reloading the
active environment, unload the current aliases when an environment other
than the sentinel is active, then set the marker and load the target
aliases. -/
def load (st : St) (output : List String) (env : String) :
    Except Exit (List String) :=
  if !env_exists st env then
    .error (.err ("Environment " ++ env ++ " does not exist."))
  else
    let step : Except Exit (List String) :=
      match st.envVar with
      | some cur =>
        if cur = env then .error (.err "Environment already loaded")
        else if cur ≠ NO_ENV_ACTIVE then unalias_all st output cur
        else .ok output
      | none => .ok output
    match step with
    | .error e => .error e
    | .ok out1 => alias_all st (set_alias_var out1 env) env

/-- Source new, line 230: validate the name, require the environment to be
absent, create its directory and empty alias file, then load it. -/
def new (st : St) (output : List String) (env : String) :
    Except Exit (List String × St) :=
  if !is_valid_env_name env then
    .error (.err "Not a valid environment name. Only numbers, letters, period, underscore, and hyphen allowed.")
  else if env_exists st env then
    .error (.err ("Environment " ++ env ++ " already exists."))
  else
    let st' : St :=
      { st with envs := st.envs ++ [env],
                files := fun e => if e = env then some [] else st.files e }
    match load st' output env with
    | .error e => .error e
    | .ok out => .ok (out, st')

/-- Source delete, line 262: require the environment directory to exist;
when it is the active one, first emit the unalias statements of all its
aliases and the marker reset to the sentinel; finally remove the directory.
The removal happens after the emission: when the emission step diverges the
function diverges without touching the directory. -/
def delete (st : St) (output : List String) (env : String) :
    Except Exit (List String × St) :=
  if !(st.envs.contains env) then
    .error (.err ("No such environment: " ++ env))
  else
    let step : Except Exit (List String) :=
      if is_cur_env st env then
        match unalias_all st output env with
        | .error e => .error e
        | .ok o => .ok (set_alias_var o NO_ENV_ACTIVE)
      else .ok output
    match step with
    | .error e => .error e
    | .ok out1 =>
      .ok (out1,
        { st with envs := st.envs.filter (fun e => e != env),
                  files := fun e => if e = env then none else st.files e })

/-- Source show_all, line 309: one echo statement per environment directory,
the active one suffixed with a star. -/
def show_all (st : St) (output : List String) : List String :=
  output ++ st.envs.map (fun env =>
    if is_cur_env st env then "echo \x27" ++ env ++ "*\x27"
    else "echo \x27" ++ env ++ "\x27")

/-- The record text written by add_alias, line 343. -/
def record (a command : String) : String :=
  "alias " ++ a ++ "=\x22" ++ command ++ "\x22"

/-- The marker substring delete_alias_from_file filters on, line 106. -/
def searchText (a : String) : String :=
  "alias " ++ a ++ "="

/-- Source add_alias, line 327: require a marker variable distinct from the
sentinel, then append one record line to the alias file of the environment
the marker names, opening it with unwrap: when the file cannot be opened the
process aborts through a panic instead of the error protocol. -/
def add_alias (st : St) (output : List String) (a command : String) :
    Except Exit (List String × St) :=
  match st.envVar with
  | none => .error (.err ("$" ++ ENV_VAR ++ " does not exist. Rerun setup."))
  | some cur =>
    if cur = NO_ENV_ACTIVE then .error (.err "No alias env active.")
    else
      match st.files cur with
      | none => .error (.abort "called Result::unwrap on an Err value")
      | some lines =>
        let new_alias := record a command
        .ok (add_output_line output new_alias,
          { st with files := fun e =>
              if e = cur then some (lines ++ [new_alias]) else st.files e })

/-- Source delete_alias_from_file, line 105: open the file, keep every line
that does not contain the marker substring for the alias, and when nothing
was dropped return false without rewriting; otherwise rewrite the file with
the kept lines in order and return true.  The result pairs the returned
Bool with the file contents afterwards. -/
def delete_alias_from_file (file : Option (List String)) (a : String) :
    Except Exit (Bool × List String) :=
  match file with
  | none => .error (.err "Unable to access aliases")
  | some lines =>
    let search_text := searchText a
    let new_lines := lines.filter (fun line => !containsSub line search_text)
    if new_lines.length = lines.length then .ok (false, lines)
    else .ok (true, new_lines)

/-- Source remove_alias, line 361: require a marker variable distinct from
the sentinel, delete the alias from the alias file of the environment the
marker names, and either emit one unalias statement or report that the alias
does not exist. -/
def remove_alias (st : St) (output : List String) (a : String) :
    Except Exit (List String × St) :=
  match st.envVar with
  | none => .error (.err ("$" ++ ENV_VAR ++ " does not exist. Rerun setup."))
  | some cur =>
    if cur = NO_ENV_ACTIVE then .error (.err "No alias env active.")
    else
      match delete_alias_from_file (st.files cur) a with
      | .error e => .error e
      | .ok (removed, new_lines) =>
        if removed then
          .ok (add_output_line output ("unalias " ++ a),
            { st with files := fun e =>
                if e = cur then some new_lines else st.files e })
        else .error (.err "No such alias.")

/-- The parsed subcommands of the clap surface, lines 397-425. -/
inductive Cmd where
  | new (env : String)
  | delete (env : String)
  | load (env : String)
  | showAll
  | add (a command : String)
  | rem (a : String)

/-- Dispatch of main, lines 432-451. -/
def runCmd (st : St) (output : List String) : Cmd → Except Exit (List String × St)
  | .new e => new st output e
  | .delete e => delete st output e
  | .load e =>
    match load st output e with
    | .error ex => .error ex
    | .ok o => .ok (o, st)
  | .showAll => .ok (show_all st output, st)
  | .add a c => add_alias st output a c
  | .rem a => remove_alias st output a

/-- Observable result of one whole invocation: success prints the flushed
buffer and exits 0, errorExit prints the given single echo statement and
exits 1, aborted is a panic exiting nonzero with nothing on stdout. -/
inductive Outcome where
  | success (line : String)
  | errorExit (stmt : String)
  | aborted (msg : String)
  deriving DecidableEq, Repr

/-- Source main, line 393: run setup, dispatch the subcommand, and print
either the buffer or the single error statement. -/
def runMain (st : St) (cmd : Cmd) : Outcome :=
  match runCmd st (setup st []) cmd with
  | .ok p => .success (flush p.1)
  | .error (.err m) => .errorExit (error_stmt m)
  | .error (.abort m) => .aborted m

/-- The single output line alias_all appends for a file with the given
lines: nothing when the semicolon join is empty, the join otherwise.  The
same shape describes the line unalias_all appends for the mapped unalias
statements. -/
def joinedPart (ls : List String) : List String :=
  if String.intercalate ";" ls != "" then [String.intercalate ";" ls] else []

/-! Helper lemmas about the two file readers and the substring test. -/

theorem alias_all_ok (st : St) (out : List String) (env : String)
    (lines : List String) (hf : st.files env = some lines) :
    alias_all st out env = .ok (out ++ joinedPart lines) := by
  simp only [alias_all, hf, joinedPart]
  split <;> simp_all [add_output_line]

theorem unalias_all_ok (st : St) (out : List String) (env : String)
    (ml us : List String) (hf : st.files env = some ml)
    (hu : unaliasLines ml = .ok us) :
    unalias_all st out env = .ok (out ++ joinedPart us) := by
  simp only [unalias_all, hf, hu, joinedPart]
  split <;> simp_all [add_output_line]

theorem unaliasLines_err (lines : List String) (l : String)
    (hl : l ∈ lines) (hbad : scanAlias l = none) :
    unaliasLines lines = .error (.err "Invalid alias file") := by
  induction lines with
  | nil => cases hl
  | cons x xs ih =>
    cases hl with
    | head => simp [unaliasLines, hbad]
    | tail _ h =>
      cases hx : scanAlias x with
      | none => simp [unaliasLines, hx]
      | some a => simp [unaliasLines, hx, ih h]

theorem containsSub_of_isPrefixOf (hay needle : String)
    (h : needle.data.isPrefixOf hay.data = true) :
    containsSub hay needle = true := by
  unfold containsSub
  rw [List.any_eq_true]
  refine ⟨0, by simp, by simpa using h⟩

theorem record_eq (a c : String) :
    record a c = searchText a ++ "\x22" ++ c ++ "\x22" := by
  unfold record searchText
  rw [String.append_assoc ("alias " ++ a) "=" "\x22"]
  rfl

theorem record_contains_search (a c : String) :
    containsSub (record a c) (searchText a) = true := by
  apply containsSub_of_isPrefixOf
  rw [List.isPrefixOf_iff_prefix, record_eq, String.append_assoc,
    String.append_assoc, String.data_append]
  exact List.prefix_append _ _

/-! States used by the concrete evaluations below. -/

/-- Fresh installation: sentinel marker, no environments. -/
def stBad : St := ⟨some NO_ENV_ACTIVE, [], fun _ => none⟩

/-- Marker set by hand to a name with no environment directory behind it. -/
def stGhost : St := ⟨some "ghost", [], fun _ => none⟩

/-- C1, code bug evidence: the name with a space and an exclamation mark
passes is_valid_env_name, because the source tests the character-class
pattern with an unanchored Regex::is_match, which succeeds as soon as one
character of the name lies in the class; new therefore creates the directory
for this name and auto-loads it instead of failing with InvalidName before
creating anything, contradicting the validation the source itself announces
in its comment and error message. -/
theorem C1_new_accepts_bad_name :
    is_valid_env_name "bad name!" = true ∧
    new stBad [] "bad name!" =
      .ok ([setenv ENV_VAR "bad name!"],
        { stBad with
            envs := ["bad name!"],
            files := fun e => if e = "bad name!" then some [] else none }) := by
  exact ⟨by decide, rfl⟩

/-- C2 counterexample: with the marker naming an environment whose directory
is absent, the add subcommand aborts through the unwrap panic on the file
open, so this invocation neither prints a semicolon-joined line and exits 0
nor prints a single echo error statement and exits 1. -/
theorem C2_counterexample :
    runMain stGhost (Cmd.add "x" "y") =
      Outcome.aborted "called Result::unwrap on an Err value" := rfl

/-- C2 amended: every invocation either prints one semicolon-joined line of
shell statements and exits 0, or prints a single echo error statement and
exits 1, or aborts through a Rust panic on an unexpected I/O failure (an
expect or unwrap in the source), printing nothing to standard output. -/
theorem C2_outcomes (st : St) (cmd : Cmd) :
    (∃ out, runMain st cmd = Outcome.success (flush out)) ∨
    (∃ m, runMain st cmd = Outcome.errorExit (error_stmt m)) ∨
    (∃ m, runMain st cmd = Outcome.aborted m) := by
  unfold runMain
  cases h : runCmd st (setup st []) cmd with
  | ok p => exact Or.inl ⟨p.1, rfl⟩
  | error e =>
    cases e with
    | err m => exact Or.inr (Or.inl ⟨m, rfl⟩)
    | abort m => exact Or.inr (Or.inr ⟨m, rfl⟩)

theorem alias_all_shape (st : St) (out : List String) (env : String)
    (o : List String) (h : alias_all st out env = .ok o) :
    ∃ t, o = out ++ t := by
  simp only [alias_all] at h
  split at h
  · cases h
  · split at h
    · cases h; exact ⟨_, rfl⟩
    · cases h; exact ⟨[], by simp⟩

theorem load_sets_marker (st : St) (out : List String) (env : String)
    (o : List String) (h : load st out env = .ok o) :
    setenv ENV_VAR env ∈ o := by
  simp only [load] at h
  split at h
  · cases h
  · split at h
    · cases h
    · rcases alias_all_shape _ _ _ _ h with ⟨t, rfl⟩
      simp [set_alias_var, add_output_line]

/-- C3: for every valid name x and any starting state, in particular any
starting value of the marker variable, a successful invocation of new x has
emitted the statement assigning the Active-Environment Marker to x among its
output statements (new auto-loads the freshly created environment). -/
theorem C3_new_sets_marker (st : St) (x : String) (r : List String × St)
    (hv : is_valid_env_name x = true)
    (h : new st (setup st []) x = .ok r) :
    setenv ENV_VAR x ∈ r.1 := by
  simp only [new] at h
  split at h
  · cases h
  · split at h
    · cases h
    · split at h
      · cases h
      · rename_i out heq
        cases h
        exact load_sets_marker _ _ _ _ heq

/-- C3 witness: on a fresh installation the invocation new work succeeds and
its output contains the marker assignment to work. -/
theorem C3_witness :
    setenv ENV_VAR "work" ∈
      (([setenv ENV_VAR "work"],
        { stBad with
            envs := ["work"],
            files := fun e => if e = "work" then some [] else none }) :
        List String × St).1 :=
  C3_new_sets_marker stBad "work" _ (by decide) rfl

/-- Environment whose alias file holds one line that is not an alias
record. -/
def stCorrupt : St :=
  ⟨some NO_ENV_ACTIVE, ["bad"],
   fun e => if e = "bad" then some ["garbage"] else none⟩

/-- C4 counterexample: the alias file of environment bad holds the line
garbage, which does not scan as an alias record, yet loading that
environment succeeds and emits the line verbatim instead of failing with
CorruptFile: the loading reader never parses the records. -/
theorem C4_counterexample :
    scanAlias "garbage" = none ∧
    runMain stCorrupt (Cmd.load "bad") =
      Outcome.success (flush [setenv ENV_VAR "bad", "garbage"]) :=
  ⟨by decide, rfl⟩

/-- C4 amended: when an alias file contains a line that does not match the
record shape, the unloading reader (unalias_all, which parses every line)
fails with the CorruptFile error, but the loading reader (alias_all)
performs no validation and succeeds, emitting the file lines verbatim. -/
theorem C4_read_paths (st : St) (env : String) (lines out : List String)
    (l : String) (hf : st.files env = some lines) (hl : l ∈ lines)
    (hbad : scanAlias l = none) :
    unalias_all st out env = .error (.err "Invalid alias file") ∧
    alias_all st out env = .ok (out ++ joinedPart lines) := by
  refine ⟨?_, alias_all_ok st out env lines hf⟩
  simp only [unalias_all, hf, unaliasLines_err lines l hl hbad]

/-- C4 witness: the two readers on the corrupt file of stCorrupt. -/
theorem C4_witness :
    unalias_all stCorrupt [] "bad" = .error (.err "Invalid alias file") ∧
    alias_all stCorrupt [] "bad" = .ok ([] ++ joinedPart ["garbage"]) :=
  C4_read_paths stCorrupt "bad" ["garbage"] [] "garbage" rfl (by simp)
    (by decide)

/-- C5: for every load of a target differing from the marker value, the plan
is the ordered sequence [optional unload-all(current), set-marker(target),
load-all(target)]: when the marker holds the sentinel no unload statement is
emitted and the marker assignment comes first, otherwise the single line
unloading all aliases of the currently active environment precedes the
marker assignment, which precedes the line defining the aliases of the
target. -/
theorem C5_load_plan (st : St) (target m : String) (tl : List String)
    (hm : st.envVar = some m) (hne : m ≠ target)
    (hex : env_exists st target = true)
    (htl : st.files target = some tl) :
    (m = NO_ENV_ACTIVE →
      load st [] target = .ok ([setenv ENV_VAR target] ++ joinedPart tl)) ∧
    (m ≠ NO_ENV_ACTIVE → ∀ ml us, st.files m = some ml →
      unaliasLines ml = .ok us →
      load st [] target =
        .ok (joinedPart us ++ [setenv ENV_VAR target] ++ joinedPart tl)) := by
  constructor
  · intro hsent
    subst hsent
    have h1 := alias_all_ok st [setenv ENV_VAR target] target tl htl
    simp [load, hex, hm, hne, h1, set_alias_var, add_output_line]
  · intro hns ml us hml hus
    have h1 := unalias_all_ok st [] m ml us hml hus
    have h2 :=
      alias_all_ok st (joinedPart us ++ [setenv ENV_VAR target]) target tl htl
    simp [load, hex, hm, hne, hns, h1, h2, set_alias_var, add_output_line]

/-- Marker on environment old while environment work also exists; old has one
alias record. -/
def stTwo : St :=
  ⟨some "old", ["work", "old"],
   fun e =>
     if e = "old" then some ["alias ll=\x22ls -la\x22"]
     else if e = "work" then some [] else none⟩

/-- C5 witness: loading work while old is active first unloads the alias of
old, then assigns the marker to work; work has no aliases so nothing
follows. -/
theorem C5_witness :
    load stTwo [] "work" =
      .ok (joinedPart ["unalias ll"] ++ [setenv ENV_VAR "work"] ++
        joinedPart []) :=
  (C5_load_plan stTwo "work" "old" [] rfl (by decide) (by decide) rfl).2
    (by decide) ["alias ll=\x22ls -la\x22"] ["unalias ll"] rfl rfl

/-- C6: deleting an existing environment that is currently active produces
exactly the plan [single line unaliasing each of its aliases, marker reset
to the sentinel] and only then removes the directory from the store: when
the plan computation diverges (alias file unreadable) the function diverges
with the directory untouched; deleting an existing environment that is not
active emits no statement at all, in particular no marker change and no
unalias. -/
theorem C6_delete_plan (st : St) (name : String)
    (hex : st.envs.contains name = true) :
    (∀ ml us, st.envVar = some name → st.files name = some ml →
      unaliasLines ml = .ok us →
      delete st [] name =
        .ok (joinedPart us ++ [setenv ENV_VAR NO_ENV_ACTIVE],
          { st with envs := st.envs.filter (fun e => e != name),
                    files := fun e => if e = name then none else st.files e })) ∧
    (st.envVar = some name → st.files name = none →
      delete st [] name = .error (.err "Unable to access aliases")) ∧
    (is_cur_env st name = false →
      delete st [] name =
        .ok ([],
          { st with envs := st.envs.filter (fun e => e != name),
                    files := fun e => if e = name then none else st.files e })) := by
  have hmem : name ∈ st.envs := by simpa using hex
  refine ⟨?_, ?_, ?_⟩
  · intro ml us hv hf hus
    have h1 := unalias_all_ok st [] name ml us hf hus
    simp [delete, hmem, is_cur_env, hv, h1, set_alias_var, add_output_line]
  · intro hv hf
    simp [delete, hmem, is_cur_env, hv, unalias_all, hf]
  · intro hcur
    simp [delete, hmem, hcur]

/-- Active environment work with a single alias record for ll. -/
def stWork : St :=
  ⟨some "work", ["work"],
   fun e => if e = "work" then some ["alias ll=\x22ls -la\x22"] else none⟩

/-- C6 witness: deleting work while it is active emits the unalias line for
ll and the marker reset, and removes work from the store. -/
theorem C6_witness :
    delete stWork [] "work" =
      .ok (joinedPart ["unalias ll"] ++ [setenv ENV_VAR NO_ENV_ACTIVE],
        { stWork with
            envs := stWork.envs.filter (fun e => e != "work"),
            files := fun e => if e = "work" then none else stWork.files e }) :=
  (C6_delete_plan stWork "work" (by decide)).1 ["alias ll=\x22ls -la\x22"]
    ["unalias ll"] rfl rfl rfl

/-- C7: with an active environment whose alias file is readable, add writes
the record line for the pair to the end of the file and emits it, so the
file contains the record; the subsequent rem of the same alias name succeeds
(the source function returns true and one unalias statement is emitted) and
rewrites the file to the lines not containing the marker substring, after
which no record line for that alias name remains in the file. -/
theorem C7_add_then_rem (st : St) (cur : String) (lines : List String)
    (a c : String) (hv : st.envVar = some cur) (hs : cur ≠ NO_ENV_ACTIVE)
    (hf : st.files cur = some lines) :
    ∃ st1 st2,
      add_alias st [] a c = .ok ([record a c], st1) ∧
      st1.files cur = some (lines ++ [record a c]) ∧
      record a c ∈ lines ++ [record a c] ∧
      remove_alias st1 [] a = .ok (["unalias " ++ a], st2) ∧
      st2.files cur =
        some ((lines ++ [record a c]).filter
          (fun l => !containsSub l (searchText a))) ∧
      (∀ c', record a c' ∉
        (lines ++ [record a c]).filter
          (fun l => !containsSub l (searchText a))) := by
  have hlen :
      (lines.filter (fun l => !containsSub l (searchText a))).length ≠
      lines.length + 1 := by
    have hle := List.length_filter_le
      (fun l => !containsSub l (searchText a)) lines
    omega
  refine
    ⟨{ st with files := fun e =>
        if e = cur then some (lines ++ [record a c]) else st.files e },
     { { st with files := fun e =>
          if e = cur then some (lines ++ [record a c]) else st.files e } with
        files := fun e =>
          if e = cur then
            some ((lines ++ [record a c]).filter
              (fun l => !containsSub l (searchText a)))
          else
            ({ st with files := fun e' =>
                if e' = cur then some (lines ++ [record a c])
                else st.files e' }).files e },
     ?_, ?_, ?_, ?_, ?_, ?_⟩
  · simp [add_alias, hv, hs, hf, add_output_line, record]
  · simp
  · simp
  · simp [remove_alias, hv, hs, delete_alias_from_file, add_output_line,
      List.filter_cons, record_contains_search, hlen]
  · simp
  · intro c' hmem
    rw [List.mem_filter] at hmem
    have hc := record_contains_search a c'
    simp [hc] at hmem

/-- C8: when no line of the alias file contains the marker substring for an
alias name, the removal returns false with the file contents untouched (the
source returns before any rewrite of the file), and the rem subcommand
reports the error that the alias does not exist. -/
theorem C8_rem_missing (st : St) (cur a : String) (lines : List String)
    (hv : st.envVar = some cur) (hs : cur ≠ NO_ENV_ACTIVE)
    (hf : st.files cur = some lines)
    (hnone : ∀ l ∈ lines, containsSub l (searchText a) = false) :
    delete_alias_from_file (st.files cur) a = .ok (false, lines) ∧
    remove_alias st [] a = .error (.err "No such alias.") := by
  have hfilter :
      lines.filter (fun l => !containsSub l (searchText a)) = lines := by
    rw [List.filter_eq_self]
    intro x hx
    simp [hnone x hx]
  constructor
  · simp [delete_alias_from_file, hf, hfilter]
  · simp [remove_alias, hv, hs, delete_alias_from_file, hf, hfilter]

/-- Active environment work with an empty alias file. -/
def stEmptyWork : St :=
  ⟨some "work", ["work"], fun e => if e = "work" then some [] else none⟩

/-- Active environment work whose alias file holds a record for gs only. -/
def stGs : St :=
  ⟨some "work", ["work"],
   fun e => if e = "work" then some ["alias gs=\x22git status\x22"] else none⟩

/-- C7 witness: on the empty alias file of the active environment, adding
the alias ll for ls -la and then removing ll runs through the proved
round-trip. -/
theorem C7_witness :
    ∃ st1 st2,
      add_alias stEmptyWork [] "ll" "ls -la" =
        .ok ([record "ll" "ls -la"], st1) ∧
      st1.files "work" = some ([] ++ [record "ll" "ls -la"]) ∧
      record "ll" "ls -la" ∈ [] ++ [record "ll" "ls -la"] ∧
      remove_alias st1 [] "ll" = .ok (["unalias " ++ "ll"], st2) ∧
      st2.files "work" =
        some (([] ++ [record "ll" "ls -la"]).filter
          (fun l => !containsSub l (searchText "ll"))) ∧
      (∀ c', record "ll" c' ∉
        ([] ++ [record "ll" "ls -la"]).filter
          (fun l => !containsSub l (searchText "ll"))) :=
  C7_add_then_rem stEmptyWork "work" [] "ll" "ls -la" rfl (by decide) rfl

/-- C8 witness: removing the absent alias ll from the file of stGs returns
false, leaves the file unchanged, and the subcommand reports the error. -/
theorem C8_witness :
    delete_alias_from_file (stGs.files "work") "ll" =
      .ok (false, ["alias gs=\x22git status\x22"]) ∧
    remove_alias stGs [] "ll" = .error (.err "No such alias.") :=
  C8_rem_missing stGs "work" "ll" ["alias gs=\x22git status\x22"] rfl
    (by decide) rfl (by decide)

/-- C9 counterexample: when the marker was set by hand to a name with no
environment directory behind it, loading that very name fails with the
not-found error, not with AlreadyLoaded, so the claim quantified over every
invocation with marker equal to the target is false as stated. -/
theorem C9_counterexample :
    runMain stGhost (Cmd.load "ghost") =
      Outcome.errorExit (error_stmt "Environment ghost does not exist.") ∧
    runMain stGhost (Cmd.load "ghost") ≠
      Outcome.errorExit (error_stmt "Environment already loaded") :=
  ⟨rfl, by decide⟩

/-- C9 amended: for every invocation of load name where the marker equals
name and an environment of that name exists, the invocation fails with
AlreadyLoaded: the whole process output is the single echo statement of that
error, so in particular no marker-change statement is printed. -/
theorem C9_already_loaded (st : St) (name : String)
    (hm : st.envVar = some name) (hex : env_exists st name = true) :
    runMain st (Cmd.load name) =
      Outcome.errorExit (error_stmt "Environment already loaded") := by
  simp [runMain, runCmd, setup, hm, load, hex]

/-- Marker on environment work, which exists. -/
def stLoaded : St := ⟨some "work", ["work"], fun _ => none⟩

/-- C9 witness: reloading the active environment work. -/
theorem C9_witness :
    runMain stLoaded (Cmd.load "work") =
      Outcome.errorExit (error_stmt "Environment already loaded") :=
  C9_already_loaded stLoaded "work" rfl (by decide)

/-- C10: the active-environment check of add and rem rejects exactly the
unset marker (with the rerun-setup error) and the sentinel marker (with the
no-active-environment error); any other marker string passes the check, and
when the alias file at that name cannot be opened, because no environment
directory of that name exists, add aborts through the unwrap panic on the
open and rem fails with the file-access error: neither reports an
environment-not-found error. -/
theorem C10_guard (st : St) (out : List String) (a c : String) :
    (st.envVar = none →
      add_alias st out a c =
        .error (.err ("$" ++ ENV_VAR ++ " does not exist. Rerun setup.")) ∧
      remove_alias st out a =
        .error (.err ("$" ++ ENV_VAR ++ " does not exist. Rerun setup."))) ∧
    (st.envVar = some NO_ENV_ACTIVE →
      add_alias st out a c = .error (.err "No alias env active.") ∧
      remove_alias st out a = .error (.err "No alias env active.")) ∧
    (∀ cur, st.envVar = some cur → cur ≠ NO_ENV_ACTIVE →
      st.files cur = none →
      add_alias st out a c =
        .error (.abort "called Result::unwrap on an Err value") ∧
      remove_alias st out a = .error (.err "Unable to access aliases")) := by
  refine ⟨?_, ?_, ?_⟩
  · intro h
    simp [add_alias, remove_alias, h]
  · intro h
    simp [add_alias, remove_alias, h]
  · intro cur h hns hfn
    simp [add_alias, remove_alias, delete_alias_from_file, h, hns, hfn]

/-- C10 witness: with the marker set by hand to ghost, whose directory does
not exist, add aborts on the file open and rem fails with the file-access
error. -/
theorem C10_witness :
    add_alias stGhost [] "x" "y" =
      .error (.abort "called Result::unwrap on an Err value") ∧
    remove_alias stGhost [] "x" = .error (.err "Unable to access aliases") :=
  (C10_guard stGhost [] "x" "y").2.2 "ghost" rfl (by decide) rfl

end Alienv
